import Mathlib

/-!
Verification development for the COH_RL repository: a shallow embedding of
the game-state monitor (`COH_BOT/game_state.py`), the decision engine
(`COH_BOT/llm_integrations.py`) and the attack controller
(`COH_BOT/player_attacks.py`, `COH_BOT/player_movement.py`), together with
theorems settling the specification's claims about them.

Modelling conventions:
* Python floats are modelled as rationals (`ℚ`); Python `int()` truncation of
  a non-negative value is `Nat` floor division.
* Images are row-major lists of pixels; a pixel is a channel triple of `ℕ`.
  The OpenCV colour-space conversion `cv2.cvtColor(..., COLOR_BGR2HSV)` is a
  per-pixel library function and is passed in as a parameter `cvt`.
* External effects (screenshot capture, the remote Bedrock invocation, the
  wall clock, `json.loads`) are inputs to the embedded functions: a captured
  image, an `InvokeResult` recording whether the remote call raised or which
  reply text it produced, a timestamp, and a parse function returning the
  decoded JSON object or `none` on a decode error.
* Keyboard side effects are recorded as an explicit `Event` trace.
-/

namespace COH

/-- A UI region `(x, y, width, height)` as stored in
`GameStateMonitor.ui_regions` (`game_state.py`). -/
structure Region where
  x : Nat
  y : Nat
  w : Nat
  h : Nat
  deriving DecidableEq, Repr

/-- The five named UI regions held by `GameStateMonitor.ui_regions`. -/
structure UIRegions where
  health_bar : Region
  endurance_bar : Region
  experience_bar : Region
  chat_area : Region
  target_info : Region
  deriving DecidableEq, Repr

/-- The initial `ui_regions` dictionary from `GameStateMonitor.__init__`. -/
def defaultUIRegions : UIRegions where
  health_bar := ⟨50, 50, 200, 20⟩
  endurance_bar := ⟨50, 80, 200, 20⟩
  experience_bar := ⟨50, 110, 300, 15⟩
  chat_area := ⟨10, 400, 500, 200⟩
  target_info := ⟨600, 50, 200, 100⟩

/-- A pixel: a triple of channel values (HSV or BGR depending on context). -/
abbrev Pixel := Nat × Nat × Nat

/-- An image: a row-major grid of pixels. -/
abbrev Image := List (List Pixel)

/-- A colour range `(lower, upper)` as stored in
`GameStateMonitor.color_ranges`. -/
abbrev ColorRange := Pixel × Pixel

/-- Embeds `color_ranges['health_red']` from `GameStateMonitor.__init__`. -/
def health_red : ColorRange := ((0, 120, 70), (10, 255, 255))

/-- Embeds `color_ranges['health_green']` from `GameStateMonitor.__init__`. -/
def health_green : ColorRange := ((40, 120, 70), (80, 255, 255))

/-- Embeds `color_ranges['endurance_blue']` from `GameStateMonitor.__init__`. -/
def endurance_blue : ColorRange := ((100, 120, 70), (130, 255, 255))

/-- Embeds `color_ranges['experience_yellow']` from `GameStateMonitor.__init__`. -/
def experience_yellow : ColorRange := ((20, 120, 70), (30, 255, 255))

/-- Numpy slicing `image[y:y+height, x:x+width]`: out-of-bounds parts of the
slice are clipped, never an error. -/
def crop (img : Image) (r : Region) : Image :=
  ((img.drop r.y).take r.h).map (fun row => (row.drop r.x).take r.w)

/-- Embeds `cv2.inRange` membership test for one pixel: inclusive bounds on every
channel. -/
def pixelInRange (cr : ColorRange) (p : Pixel) : Bool :=
  decide (cr.1.1 ≤ p.1 ∧ p.1 ≤ cr.2.1 ∧
    cr.1.2.1 ≤ p.2.1 ∧ p.2.1 ≤ cr.2.2.1 ∧
    cr.1.2.2 ≤ p.2.2 ∧ p.2.2 ≤ cr.2.2.2)

/-- Embeds `GameStateMonitor.extract_bar_percentage(image, color_range, bar_region)`
(`game_state.py`): crop to the bar region, convert each pixel with `cvt`
(the per-pixel action of `cv2.cvtColor(..., COLOR_BGR2HSV)`), count pixels
inside the colour range, and return `filled / (width*height) * 100` clamped
by `min(100, max(0, ·))`. This total model treats the colour conversion as a
per-pixel map, which is exact on nonempty crops but collapses the OpenCV
assertion `CV_Assert(!_src.empty())` inside `cv2.cvtColor`, which raises
`cv2.error` on an empty crop before the `total_pixels > 0` guard is reached:
`extract_bar_percentage_checked` below models that error path. -/
def extract_bar_percentage (cvt : Pixel → Pixel) (img : Image)
    (color_range : ColorRange) (bar_region : Region) : ℚ :=
  let bar_image := crop img bar_region
  let hsv := bar_image.map (fun row => row.map cvt)
  let total_pixels := bar_region.w * bar_region.h
  let filled_pixels := (hsv.map (fun row => row.countP (pixelInRange color_range))).sum
  if total_pixels > 0 then
    min 100 (max 0 ((filled_pixels : ℚ) / (total_pixels : ℚ) * 100))
  else
    0

/-- Embeds `GameStateMonitor.get_health_percentage` (`game_state.py`): one screenshot
`img`, extracted against both the green and the red health colour ranges over
the `health_bar` region, returning the larger value. -/
def get_health_percentage (cvt : Pixel → Pixel) (regs : UIRegions)
    (img : Image) : ℚ :=
  let green_health := extract_bar_percentage cvt img health_green regs.health_bar
  let red_health := extract_bar_percentage cvt img health_red regs.health_bar
  max green_health red_health

/-- Embeds `GameStateMonitor.calibrate_ui_regions(resolution)` applied to a single
region: each coordinate is scaled by `resolution / (1920, 1080)` and truncated
with `int()` (floor, since all quantities are non-negative). -/
def scaleRegion (res : Nat × Nat) (r : Region) : Region :=
  ⟨r.x * res.1 / 1920, r.y * res.2 / 1080, r.w * res.1 / 1920, r.h * res.2 / 1080⟩

/-- Embeds `GameStateMonitor.calibrate_ui_regions(resolution)` (`game_state.py`):
rebuilds `ui_regions` by scaling every currently stored region and replaces
the stored dictionary with the result. -/
def calibrate_ui_regions (res : Nat × Nat) (regs : UIRegions) : UIRegions where
  health_bar := scaleRegion res regs.health_bar
  endurance_bar := scaleRegion res regs.endurance_bar
  experience_bar := scaleRegion res regs.experience_bar
  chat_area := scaleRegion res regs.chat_area
  target_info := scaleRegion res regs.target_info

/-- Embeds `GameStateMonitor.detect_combat_state` (`game_state.py`), as a function of
the previously stored `last_endurance` attribute (`none` before the first
call) and the endurance just observed via `get_player_stats`. Returns the
boolean result and the new `last_endurance` state: when the drop exceeds 5 the
method returns `True` before the line that stores the new baseline runs, so
the baseline is unchanged in that case. -/
def detect_combat_state (last_endurance : Option ℚ) (endurance : ℚ) :
    Bool × Option ℚ :=
  match last_endurance with
  | some last => if last - endurance > 5 then (true, some last)
      else (false, some endurance)
  | none => (false, some endurance)

/-- Runs `detect_combat_state` over a sequence of observed endurance values,
threading the `last_endurance` state, and collects the returned booleans. -/
def runCombatCalls : Option ℚ → List ℚ → List Bool
  | _, [] => []
  | st, e :: es =>
      let r := detect_combat_state st e
      r.1 :: runCombatCalls r.2 es

/-! ## Decision engine (`llm_integrations.py`) -/

/-- The stats record assembled in `NovaGameplayAI.make_gameplay_decision`:
`get_player_stats()` yields health, endurance, experience and a timestamp, and
the method then stores the `detect_combat_state` / `detect_enemy_target`
observations under `in_combat` / `enemy_targeted`. -/
structure StatsObs where
  health : ℚ
  endurance : ℚ
  experience : ℚ
  timestamp : ℚ
  in_combat : Bool
  enemy_targeted : Bool
  deriving DecidableEq, Repr

/-- A Python value as it appears in the decision dictionaries: a JSON scalar
(string, boolean or number) or the nested stats dictionary stored under the
`game_state` key. -/
inductive PyVal where
  | str : String → PyVal
  | boolv : Bool → PyVal
  | num : ℚ → PyVal
  | stats : StatsObs → PyVal
  deriving DecidableEq, Repr

/-- A Python dictionary with string keys, as an association list. -/
abbrev PyDict := List (String × PyVal)

/-- Embeds `dict.get(key, default)`: the value stored under `key`, or `default`. -/
def PyDict.get (d : PyDict) (key : String) (dflt : PyVal) : PyVal :=
  match d with
  | [] => dflt
  | (k, v) :: rest => if k = key then v else PyDict.get rest key dflt

/-- Embeds `dict[key] = value`: replaces the value under an existing key, otherwise
appends the new entry. -/
def PyDict.set (d : PyDict) (key : String) (v : PyVal) : PyDict :=
  match d with
  | [] => [(key, v)]
  | (k, w) :: rest =>
      if k = key then (k, v) :: rest else (k, w) :: PyDict.set rest key v

/-- The outcome of the `bedrock_client.invoke_model` call plus the extraction
of the reply text in `call_nova_with_image`: either some exception was raised
(network/auth error, malformed response envelope, ...) with message `e`, or a
reply text was obtained. -/
inductive InvokeResult where
  | failure : String → InvokeResult
  | reply : String → InvokeResult
  deriving DecidableEq, Repr

/-- Embeds `NovaGameplayAI.call_nova_with_image` (`llm_integrations.py`), as a
function of the invocation outcome. `parse` is `json.loads` on the reply
text, returning `none` exactly when `json.JSONDecodeError` is raised (the
claims only concern objects, so decoded values are modelled as dictionaries).
An invocation exception is caught and turned into the
`{action: rest, reason: API error: ...}` default; a decode error is caught
and turned into the `{action: rest, reason: Failed to parse AI response}`
default; a successfully decoded object is returned as-is. -/
def call_nova_with_image (parse : String → Option PyDict)
    (invoke : InvokeResult) : PyDict :=
  match invoke with
  | .failure e => [("action", .str "rest"), ("reason", .str ("API error: " ++ e))]
  | .reply text =>
      match parse text with
      | some d => d
      | none => [("action", .str "rest"), ("reason", .str "Failed to parse AI response")]

/-- The stats dictionary passed to `analyze_game_state`: each of the four
fields read there may be absent (`stats.get` supplies a default). -/
structure Stats where
  health : Option ℚ
  endurance : Option ℚ
  in_combat : Option Bool
  enemy_targeted : Option Bool
  deriving DecidableEq, Repr

/-- Embeds `NovaGameplayAI.analyze_game_state(stats)` (`llm_integrations.py`):
defaults `health`/`endurance` to 100 and the two flags to `False`, then picks
`recovery` when `health < 30 or endurance < 20`, else `combat` when
`in_combat or enemy_targeted`, else `exploration`. -/
def analyze_game_state (stats : Stats) : String :=
  let health := stats.health.getD 100
  let endurance := stats.endurance.getD 100
  let in_combat := stats.in_combat.getD false
  let enemy_targeted := stats.enemy_targeted.getD false
  if health < 30 ∨ endurance < 20 then "recovery"
  else if in_combat || enemy_targeted then "combat"
  else "exploration"

/-- The action vocabulary enumerated in `decision_prompts[scenario]`
(`NovaGameplayAI.__init__`): the `Available Actions` list of the combat,
exploration and recovery prompt templates. -/
def allowed_actions (scenario : String) : List String :=
  if scenario = "combat" then
    ["attack", "power_combo", "aoe_combo", "retreat", "rest", "move_forward",
     "circle_strafe"]
  else if scenario = "exploration" then
    ["move_forward", "turn_left", "turn_right", "patrol", "rest",
     "search_enemies"]
  else if scenario = "recovery" then
    ["rest", "retreat", "find_cover", "wait"]
  else []

/-- Embeds `NovaGameplayAI.make_gameplay_decision` (`llm_integrations.py`), as a
function of the observed stats `obs`, the invocation outcome, the JSON
decoder and the wall-clock time `now`: classifies the stats, calls Nova, and
adds the `scenario`, `game_state` and `timestamp` entries to the returned
decision dictionary. No validation of the decision's action against the
scenario's vocabulary happens here. -/
def make_gameplay_decision (parse : String → Option PyDict)
    (invoke : InvokeResult) (obs : StatsObs) (now : ℚ) : PyDict :=
  let scenario := analyze_game_state
    ⟨some obs.health, some obs.endurance, some obs.in_combat, some obs.enemy_targeted⟩
  let decision := call_nova_with_image parse invoke
  ((decision.set "scenario" (.str scenario)).set "game_state" (.stats obs)).set
    "timestamp" (.num now)

/-! ## Input events (`player_movement.py`, `player_attacks.py`) -/

/-- A recorded input/timing side effect: the `pyautogui` key primitives and
`time.sleep`. -/
inductive Event where
  | press : String → Event
  | keyDown : String → Event
  | keyUp : String → Event
  | sleep : ℚ → Event
  deriving DecidableEq, Repr

/-- Python dictionary membership/lookup on an association list
(keys compared with `=`, first match wins). -/
def dictFind {α β : Type} [DecidableEq α] (key : α) : List (α × β) → Option β
  | [] => none
  | (k, v) :: rest => if k = key then some v else dictFind key rest

/-- Embeds `MovementController.move_forward(duration)`: hold `w` for `duration`. -/
def move_forward (duration : ℚ) : List Event :=
  [.keyDown "w", .sleep duration, .keyUp "w"]

/-- Embeds `MovementController.move_backward(duration)`: hold `s` for `duration`. -/
def move_backward (duration : ℚ) : List Event :=
  [.keyDown "s", .sleep duration, .keyUp "s"]

/-- Embeds `MovementController.strafe_left(duration)`: hold `a` for `duration`. -/
def strafe_left (duration : ℚ) : List Event :=
  [.keyDown "a", .sleep duration, .keyUp "a"]

/-- Embeds `MovementController.strafe_right(duration)`: hold `d` for `duration`. -/
def strafe_right (duration : ℚ) : List Event :=
  [.keyDown "d", .sleep duration, .keyUp "d"]

/-- Embeds `MovementController.turn_left(angle)`: hold `q` for `angle / 180`
seconds. -/
def turn_left (angle : ℚ) : List Event :=
  [.keyDown "q", .sleep (angle / 180), .keyUp "q"]

/-- Embeds `MovementController.turn_right(angle)`: hold `e` for `angle / 180`
seconds. -/
def turn_right (angle : ℚ) : List Event :=
  [.keyDown "e", .sleep (angle / 180), .keyUp "e"]

/-- Embeds `MovementController.circle_strafe_target(radius, duration, clockwise)`:
`int(duration * 10)` steps of short forward motion, a strafe, an incremental
turn and a pause. (`radius` is accepted but unused by the source; callers in
this repository pass a positive `duration`, so `steps` is positive.) -/
def circle_strafe_target (radius : ℚ) (duration : ℚ)
    (clockwise : Bool := true) : List Event :=
  let _ := radius
  let steps := (duration * 10).floor.toNat
  let step_duration := duration / steps
  let turn_angle := 360 / (steps : ℚ)
  (List.range steps).flatMap (fun _ =>
    move_forward (step_duration * 0.3) ++
    (if clockwise then strafe_right (step_duration * 0.4) ++ turn_right turn_angle
     else strafe_left (step_duration * 0.4) ++ turn_left turn_angle) ++
    [.sleep (step_duration * 0.3)])

/-- Embeds `AttackController.__init__`: the default 1–9 hotkey mapping. -/
def default_hotkeys : List (Nat × String) :=
  [(1, "1"), (2, "2"), (3, "3"), (4, "4"), (5, "5"), (6, "6"), (7, "7"),
   (8, "8"), (9, "9")]

/-- Embeds `AttackController.__init__`: the default attack chains
(`(ability_key, wait_time)` pairs). -/
def default_attack_chains : List (String × List (Nat × ℚ)) :=
  [("basic_combo", [(1, 1.2), (2, 1.5), (3, 2.0)]),
   ("power_combo", [(4, 2.0), (5, 2.5), (6, 3.0)]),
   ("aoe_combo", [(7, 2.5), (8, 3.0), (9, 1.0)]),
   ("quick_strike", [(1, 0.8), (2, 0.8)]),
   ("heavy_attack", [(6, 3.5)]),
   ("defensive", [(5, 2.0), (3, 1.5)]),
   ("ranged_combo", [(2, 1.0), (4, 1.5), (7, 2.0)]),
   ("melee_combo", [(1, 1.2), (3, 1.8), (5, 2.2)])]

/-- Embeds `AttackController.__init__`: the default per-ability animation timings. -/
def default_ability_timings : List (Nat × ℚ) :=
  [(1, 1.2), (2, 1.0), (3, 1.8), (4, 1.5), (5, 2.2), (6, 3.5), (7, 2.5),
   (8, 3.0), (9, 1.0)]

/-- The outcome of a fallible input routine: the input/timing events that were
performed, and the message of the raised exception when one was raised. -/
abbrev PyResult := List Event × Option String

/-- Embeds `AttackController.use_ability(ability_number, wait_for_animation)`
(`player_attacks.py`): raises `ValueError` before any key press when the
ability number is not a configured hotkey; otherwise presses the hotkey and,
when `wait_for_animation`, sleeps for `ability_timings.get(n, 1.5)`. -/
def use_ability (hotkeys : List (Nat × String)) (timings : List (Nat × ℚ))
    (ability_number : Nat) (wait_for_animation : Bool) : PyResult :=
  match dictFind ability_number hotkeys with
  | none => ([], some ("Invalid ability number: " ++ toString ability_number))
  | some key =>
      ([.press key] ++
        (if wait_for_animation then
          [.sleep ((dictFind ability_number timings).getD 1.5)]
        else []), none)

/-- The loop body of `AttackController.execute_attack_chain`: for each
`(ability_key, wait_time)` pair in order, optionally re-check health
(`interrupt_on_low_health`; `healthAt i` is the reading taken before step `i`)
and break below 20, then `use_ability(key, wait_for_animation=False)` followed
by `time.sleep(wait_time)`. An exception from `use_ability` aborts the loop,
keeping the events already performed. -/
def runChain (hotkeys : List (Nat × String)) (timings : List (Nat × ℚ))
    (interrupt : Bool) (healthAt : Nat → ℚ) :
    Nat → List (Nat × ℚ) → PyResult
  | _, [] => ([], none)
  | i, (ability_key, wait_time) :: rest =>
      if interrupt ∧ healthAt i < 20 then ([], none)
      else
        match use_ability hotkeys timings ability_key false with
        | (evs, some e) => (evs, some e)
        | (evs, none) =>
            let r := runChain hotkeys timings interrupt healthAt (i + 1) rest
            (evs ++ [.sleep wait_time] ++ r.1, r.2)

/-- Embeds `AttackController.execute_attack_chain(chain_name, interrupt_on_low_health)`
(`player_attacks.py`): raises `ValueError` before any key press when the chain
name is not registered, otherwise runs the chain's steps in order. -/
def execute_attack_chain (chains : List (String × List (Nat × ℚ)))
    (hotkeys : List (Nat × String)) (timings : List (Nat × ℚ))
    (chain_name : String) (interrupt : Bool := false)
    (healthAt : Nat → ℚ := fun _ => 100) : PyResult :=
  match dictFind chain_name chains with
  | none => ([], some ("Unknown attack chain: " ++ chain_name))
  | some chain => runChain hotkeys timings interrupt healthAt 0 chain

/-- The event trace a chain is expected to produce: each listed slot's hotkey
pressed in order, each press followed by the prescribed wait. -/
def chainEvents (hotkeys : List (Nat × String)) (chain : List (Nat × ℚ)) :
    List Event :=
  chain.flatMap (fun p => [.press ((dictFind p.1 hotkeys).getD ""), .sleep p.2])

/-- An attack-chain invocation from `NovaGameplayAI.execute_decision`: run on
a fresh `AttackController` (default registries, `interrupt_on_low_health`
left `False`); an exception is caught by `execute_decision`'s handler, which
reports `False`, keeping the events already performed. -/
def chainResult (name : String) : Bool × List Event :=
  match execute_attack_chain default_attack_chains default_hotkeys
      default_ability_timings name with
  | (evs, none) => (true, evs)
  | (evs, some _) => (false, evs)

/-- The dispatch on a string-valued action in
`NovaGameplayAI.execute_decision` (`llm_integrations.py`): its if-chain over
the known action names, in source order. The `patrol` and `search_enemies`
branches call `MovementController.patrol_area` and
`AttackController.target_nearest_enemy`, neither of which exists, so the
attribute lookup raises `AttributeError` before any input event and the
surrounding handler returns `False`. -/
def dispatchAction (action : String) : Bool × List Event :=
  if action = "attack" then chainResult "basic_combo"
  else if action = "power_combo" then chainResult "power_combo"
  else if action = "aoe_combo" then chainResult "aoe_combo"
  else if action = "retreat" then (true, move_backward 2.0)
  else if action = "rest" then (true, [.sleep 3.0])
  else if action = "move_forward" then (true, move_forward 1.5)
  else if action = "circle_strafe" then (true, circle_strafe_target 8 2.0)
  else if action = "turn_left" then (true, turn_left 45)
  else if action = "turn_right" then (true, turn_right 45)
  else if action = "patrol" then (false, [])
  else if action = "search_enemies" then (false, [])
  else if action = "find_cover" then (true, move_backward 3.0)
  else if action = "wait" then (true, [.sleep 2.0])
  else (false, [])

/-- Embeds `NovaGameplayAI.execute_decision(decision)` (`llm_integrations.py`):
reads `decision.get('action', 'rest')` and dispatches on it; a non-string
value matches none of the comparisons and falls through to the
unknown-action branch, which returns `False` with no input performed. -/
def execute_decision (decision : PyDict) : Bool × List Event :=
  match PyDict.get decision "action" (.str "rest") with
  | .str action => dispatchAction action
  | _ => (false, [])

/-- The action names `execute_decision` recognizes, in dispatch order. -/
def known_actions : List String :=
  ["attack", "power_combo", "aoe_combo", "retreat", "rest", "move_forward",
   "circle_strafe", "turn_left", "turn_right", "patrol", "search_enemies",
   "find_cover", "wait"]

/-! ## Spec-side comparison model for the combat heuristic -/

/-- Modelled from the spec's words (claim C5) for comparison with the code:
a combat detector whose comparison point is always the endurance observed on
the immediately preceding call, i.e. whose baseline is re-recorded on every
call. -/
def spec_detect_combat_state (last_endurance : Option ℚ) (endurance : ℚ) :
    Bool × Option ℚ :=
  match last_endurance with
  | some last => (decide (last - endurance > 5), some endurance)
  | none => (false, some endurance)

/-- Runs `spec_detect_combat_state` over a sequence of observed endurance
values, threading the baseline state, and collects the booleans. -/
def specRunCombatCalls : Option ℚ → List ℚ → List Bool
  | _, [] => []
  | st, e :: es =>
      let r := spec_detect_combat_state st e
      r.1 :: specRunCombatCalls r.2 es

/-- Halving a region's coordinates and extents with truncating integer
division. -/
def halveRegion (r : Region) : Region :=
  ⟨r.x / 2, r.y / 2, r.w / 2, r.h / 2⟩

lemma scaleRegion_half (r : Region) : scaleRegion (960, 540) r = halveRegion r := by
  have h1 : ∀ n : Nat, n * 960 / 1920 = n / 2 := by
    intro n
    rw [show (1920 : Nat) = 960 * 2 from rfl, Nat.mul_comm n 960,
      Nat.mul_div_mul_left _ _ (by norm_num)]
  have h2 : ∀ n : Nat, n * 540 / 1080 = n / 2 := by
    intro n
    rw [show (1080 : Nat) = 540 * 2 from rfl, Nat.mul_comm n 540,
      Nat.mul_div_mul_left _ _ (by norm_num)]
  simp [scaleRegion, halveRegion, h1, h2]

/-! ## Claim theorems -/

/-- C2: `analyze_game_state` is a total function of
(health, endurance, in_combat, enemy_targeted) with first-match-wins
priority: `recovery` whenever `health < 30` or `endurance < 20` regardless of
the combat flags; otherwise `combat` whenever `in_combat` or `enemy_targeted`
holds; otherwise `exploration`. In particular health 20 / endurance 50 gives
`recovery` for any flags, health 80 / endurance 80 / in_combat gives
`combat`, and health 80 / endurance 80 with both flags false gives
`exploration`. -/
theorem C2_analyze_game_state_priority :
    (∀ (h e : ℚ) (ic et : Bool), (h < 30 ∨ e < 20) →
      analyze_game_state ⟨some h, some e, some ic, some et⟩ = "recovery") ∧
    (∀ (h e : ℚ) (ic et : Bool), ¬(h < 30 ∨ e < 20) → (ic || et) = true →
      analyze_game_state ⟨some h, some e, some ic, some et⟩ = "combat") ∧
    (∀ (h e : ℚ), ¬(h < 30 ∨ e < 20) →
      analyze_game_state ⟨some h, some e, some false, some false⟩ = "exploration") ∧
    (∀ ic et : Bool, analyze_game_state ⟨some 20, some 50, some ic, some et⟩ = "recovery") ∧
    (∀ et : Bool, analyze_game_state ⟨some 80, some 80, some true, some et⟩ = "combat") ∧
    analyze_game_state ⟨some 80, some 80, some false, some false⟩ = "exploration" := by
  refine ⟨?_, ?_, ?_, ?_, ?_, ?_⟩
  · intro h e ic et hrec
    simp [analyze_game_state, hrec]
  · intro h e ic et hrec hflag
    simp [analyze_game_state, hrec, hflag]
  · intro h e hrec
    simp [analyze_game_state, hrec]
  · intro ic et
    simp [analyze_game_state]
    norm_num
  · intro et
    have : ¬((80 : ℚ) < 30 ∨ (80 : ℚ) < 20) := by norm_num
    simp [analyze_game_state, this]
  · have : ¬((80 : ℚ) < 30 ∨ (80 : ℚ) < 20) := by norm_num
    simp [analyze_game_state, this]

/-- C2 witness: the three concrete classifications, obtained from
`C2_analyze_game_state_priority`. -/
theorem C2_analyze_game_state_priority_witness :
    analyze_game_state ⟨some 20, some 50, some true, some true⟩ = "recovery" ∧
    analyze_game_state ⟨some 80, some 80, some true, some false⟩ = "combat" ∧
    analyze_game_state ⟨some 80, some 80, some false, some false⟩ = "exploration" :=
  ⟨C2_analyze_game_state_priority.1 20 50 true true (by norm_num),
   C2_analyze_game_state_priority.2.1 80 80 true false (by norm_num) rfl,
   C2_analyze_game_state_priority.2.2.1 80 80 (by norm_num)⟩

/-- C10: `analyze_game_state` defaults missing keys optimistically: any stats
record classifies exactly as the record with its missing values filled in as
health 100, endurance 100, in_combat false, enemy_targeted false; in
particular the empty stats record (every key missing) classifies as
`exploration` (and no error is possible: the function is total). -/
theorem C10_analyze_game_state_defaults :
    analyze_game_state ⟨none, none, none, none⟩ = "exploration" ∧
    ∀ s : Stats, analyze_game_state s =
      analyze_game_state ⟨some (s.health.getD 100), some (s.endurance.getD 100),
        some (s.in_combat.getD false), some (s.enemy_targeted.getD false)⟩ := by
  constructor
  · norm_num [analyze_game_state]
  · intro s
    simp [analyze_game_state]

/-- C5 counterexample: on the observation sequence 80, 70, 70 the third call
of `detect_combat_state` returns `true` (the baseline was not updated by the
second, `true`-returning call), while the claim's reading — compare with the
endurance observed on the immediately preceding call, re-seeding the baseline
every call (`spec_detect_combat_state`) — demands `false` there. -/
theorem C5_detect_combat_counterexample :
    runCombatCalls none [80, 70, 70] = [false, true, true] ∧
    specRunCombatCalls none [80, 70, 70] = [false, true, false] ∧
    runCombatCalls none [80, 70, 70] ≠ specRunCombatCalls none [80, 70, 70] := by
  refine ⟨?_, ?_, ?_⟩
  · norm_num [runCombatCalls, detect_combat_state]
  · norm_num [specRunCombatCalls, spec_detect_combat_state]
  · norm_num [runCombatCalls, detect_combat_state, specRunCombatCalls,
      spec_detect_combat_state]

/-- C5 (amended): `detect_combat_state` returns false on its first invocation
(seeding the baseline); a later call returns true iff the endurance has
dropped by more than 5 relative to the stored baseline, and the baseline is
re-recorded only on calls that return false — a true-returning call leaves it
unchanged, so the comparison point is the endurance observed at the most
recent false-returning call, not necessarily the immediately preceding call.
The sequences 80-then-70 and 80-then-79 still give true and false on their
second calls. -/
theorem C5_detect_combat_amended :
    (∀ e : ℚ, (detect_combat_state none e).1 = false) ∧
    (∀ last e : ℚ, (detect_combat_state (some last) e).1 = true ↔ last - e > 5) ∧
    (∀ last e : ℚ, last - e > 5 → (detect_combat_state (some last) e).2 = some last) ∧
    (∀ last e : ℚ, ¬(last - e > 5) → (detect_combat_state (some last) e).2 = some e) ∧
    runCombatCalls none [80, 70] = [false, true] ∧
    runCombatCalls none [80, 79] = [false, false] := by
  refine ⟨?_, ?_, ?_, ?_, ?_, ?_⟩
  · intro e; simp [detect_combat_state]
  · intro last e
    by_cases h : last - e > 5 <;> simp [detect_combat_state, h]
  · intro last e h; simp [detect_combat_state, h]
  · intro last e h; simp [detect_combat_state, h]
  · norm_num [runCombatCalls, detect_combat_state]
  · norm_num [runCombatCalls, detect_combat_state]

/-- C5 witness: the baseline-update clauses of `C5_detect_combat_amended`
instantiated at 80/70 (baseline kept) and 80/79 (baseline replaced). -/
theorem C5_detect_combat_amended_witness :
    (detect_combat_state (some 80) 70).2 = some 80 ∧
    (detect_combat_state (some 80) 79).2 = some 79 :=
  ⟨C5_detect_combat_amended.2.2.1 80 70 (by norm_num),
   C5_detect_combat_amended.2.2.2.1 80 79 (by norm_num)⟩

/-- C4 counterexample: calibrating twice with the same half-reference
resolution does not equal calibrating once — the second call rescales the
already-scaled regions (the health bar goes 200 wide, to 100, then to 50). -/
theorem C4_calibrate_counterexample :
    calibrate_ui_regions (960, 540) (calibrate_ui_regions (960, 540) defaultUIRegions) ≠
      calibrate_ui_regions (960, 540) defaultUIRegions ∧
    (calibrate_ui_regions (960, 540) defaultUIRegions).health_bar = ⟨25, 25, 100, 10⟩ ∧
    (calibrate_ui_regions (960, 540)
      (calibrate_ui_regions (960, 540) defaultUIRegions)).health_bar = ⟨12, 12, 50, 5⟩ := by
  refine ⟨by decide, by decide, by decide⟩

/-- C4 (amended): calibrating to half the reference resolution halves every
stored region's x, y, width and height with truncating integer division and
replaces the prior region state; but `calibrate_ui_regions` is not idempotent:
it rescales the regions currently stored rather than recomputing them from a
fixed reference, so a second call with the same resolution halves again. -/
theorem C4_calibrate_amended :
    (∀ regs : UIRegions, calibrate_ui_regions (960, 540) regs =
      ⟨halveRegion regs.health_bar, halveRegion regs.endurance_bar,
       halveRegion regs.experience_bar, halveRegion regs.chat_area,
       halveRegion regs.target_info⟩) ∧
    calibrate_ui_regions (960, 540) (calibrate_ui_regions (960, 540) defaultUIRegions) ≠
      calibrate_ui_regions (960, 540) defaultUIRegions := by
  constructor
  · intro regs
    simp [calibrate_ui_regions, scaleRegion_half]
  · decide

lemma PyDict.get_set_self (d : PyDict) (k : String) (v dflt : PyVal) :
    (d.set k v).get k dflt = v := by
  induction d with
  | nil => simp [PyDict.set, PyDict.get]
  | cons p rest ih =>
      obtain ⟨k0, w⟩ := p
      by_cases h : k0 = k <;> simp [PyDict.set, PyDict.get, h, ih]

lemma PyDict.get_set_ne (d : PyDict) {k k' : String} (v dflt : PyVal)
    (h : k ≠ k') : (d.set k v).get k' dflt = d.get k' dflt := by
  induction d with
  | nil => simp [PyDict.set, PyDict.get, h]
  | cons p rest ih =>
      obtain ⟨k0, w⟩ := p
      by_cases h0 : k0 = k
      · subst h0
        simp [PyDict.set, PyDict.get, h]
      · by_cases h1 : k0 = k' <;>
          simp [PyDict.set, PyDict.get, h0, h1, ih, Ne.symm h]

/-- C1: every call failure (any exception raised during the remote
invocation) and every parse failure (reply text `json.loads` rejects) makes
`call_nova_with_image` return the default decision: action `rest` and a
non-empty diagnostic reason. The embedded function is total, so no exception
escapes to the caller on these paths. -/
theorem C1_call_nova_default_on_failure :
    (∀ (parse : String → Option PyDict) (e : String),
      (call_nova_with_image parse (.failure e)).get "action" (.str "") = .str "rest" ∧
      (call_nova_with_image parse (.failure e)).get "reason" (.str "") =
        .str ("API error: " ++ e) ∧
      ("API error: " ++ e) ≠ "") ∧
    (∀ (parse : String → Option PyDict) (t : String), parse t = none →
      (call_nova_with_image parse (.reply t)).get "action" (.str "") = .str "rest" ∧
      (call_nova_with_image parse (.reply t)).get "reason" (.str "") =
        .str "Failed to parse AI response" ∧
      ("Failed to parse AI response" : String) ≠ "") := by
  constructor
  · intro parse e
    refine ⟨?_, ?_, ?_⟩
    · simp [call_nova_with_image, PyDict.get]
    · simp [call_nova_with_image, PyDict.get]
    · intro hcontra
      have hlen := congrArg String.length hcontra
      rw [String.length_append] at hlen
      have h11 : ("API error: " : String).length = 11 := rfl
      have h0 : ("" : String).length = 0 := rfl
      rw [h11, h0] at hlen
      omega
  · intro parse t hparse
    refine ⟨?_, ?_, by decide⟩
    · simp [call_nova_with_image, hparse, PyDict.get]
    · simp [call_nova_with_image, hparse, PyDict.get]

/-- C1 witness: `C1_call_nova_default_on_failure` at a concrete failed
invocation and a concrete undecodable reply. -/
theorem C1_call_nova_default_on_failure_witness :
    (call_nova_with_image (fun _ => none) (.failure "ExpiredTokenException")).get
      "action" (.str "") = .str "rest" ∧
    (call_nova_with_image (fun _ => none) (.reply "Sure! Here is my plan.")).get
      "action" (.str "") = .str "rest" :=
  ⟨(C1_call_nova_default_on_failure.1 (fun _ => none) "ExpiredTokenException").1,
   (C1_call_nova_default_on_failure.2 (fun _ => none) "Sure! Here is my plan." rfl).1⟩

/-- A reply text whose `json.loads` result names an action outside every
scenario vocabulary (braces written as escapes). -/
def flyText : String :=
  "\x7b\"action\": \"fly\", \"reason\": \"wander\"\x7d"

/-- A `json.loads` model that decodes `flyText` to its object and rejects
everything else. -/
def parseFly (s : String) : Option PyDict :=
  if s = flyText then some [("action", .str "fly"), ("reason", .str "wander")]
  else none

/-- Observed stats that classify as `exploration`. -/
def obsExplore : StatsObs :=
  ⟨80, 80, 50, 0, false, false⟩

/-- C3 counterexample: with exploration stats and a well-formed JSON reply
naming the action `fly`, `make_gameplay_decision` returns a decision whose
action is `fly` and whose scenario is `exploration`, although `fly` is not in
the exploration vocabulary — no fallback to a safe action happens. -/
theorem C3_no_action_validation_counterexample :
    (make_gameplay_decision parseFly (.reply flyText) obsExplore 0).get
      "action" (.str "rest") = .str "fly" ∧
    (make_gameplay_decision parseFly (.reply flyText) obsExplore 0).get
      "scenario" (.str "") = .str "exploration" ∧
    "fly" ∉ allowed_actions "exploration" := by
  refine ⟨?_, ?_, by decide⟩
  · norm_num [make_gameplay_decision, call_nova_with_image, parseFly, obsExplore,
      analyze_game_state, PyDict.set, PyDict.get]
  · norm_num [make_gameplay_decision, call_nova_with_image, parseFly, obsExplore,
      analyze_game_state, PyDict.set, PyDict.get]
    decide

/-- C3 (amended): `make_gameplay_decision` performs no validation of the
decision's action against the scenario's allowed set — a successfully decoded
reply's action is passed through unchanged, even when it lies outside the
attached scenario's vocabulary. Only call failures and parse failures produce
the default action `rest`, and `rest` does belong to every scenario's allowed
action set. -/
theorem C3_engine_action_amended :
    (∀ (parse : String → Option PyDict) (obs : StatsObs) (now : ℚ) (msg : String),
      (make_gameplay_decision parse (.failure msg) obs now).get "action" (.str "") =
        .str "rest") ∧
    (∀ (parse : String → Option PyDict) (obs : StatsObs) (now : ℚ) (t : String),
      parse t = none →
      (make_gameplay_decision parse (.reply t) obs now).get "action" (.str "") =
        .str "rest") ∧
    (∀ stats : Stats, "rest" ∈ allowed_actions (analyze_game_state stats)) ∧
    (∀ (parse : String → Option PyDict) (obs : StatsObs) (now : ℚ)
      (t : String) (d : PyDict), parse t = some d →
      (make_gameplay_decision parse (.reply t) obs now).get "action" (.str "rest") =
        d.get "action" (.str "rest")) := by
  have hget : ∀ (d : PyDict) (s : String) (now : ℚ) (obs : StatsObs) (dflt : PyVal),
      (((d.set "scenario" (.str s)).set "game_state" (.stats obs)).set
        "timestamp" (.num now)).get "action" dflt = d.get "action" dflt := by
    intro d s now obs dflt
    rw [PyDict.get_set_ne _ _ _ (by decide), PyDict.get_set_ne _ _ _ (by decide),
      PyDict.get_set_ne _ _ _ (by decide)]
  refine ⟨?_, ?_, ?_, ?_⟩
  · intro parse obs now msg
    simp only [make_gameplay_decision, call_nova_with_image, hget]
    simp [PyDict.get]
  · intro parse obs now t hparse
    simp only [make_gameplay_decision, call_nova_with_image, hparse, hget]
    simp [PyDict.get]
  · intro stats
    rw [analyze_game_state]
    split_ifs <;> decide
  · intro parse obs now t d hparse
    simp only [make_gameplay_decision, call_nova_with_image, hparse, hget]

/-- C3 witness: `C3_engine_action_amended` at a concrete parse failure and at
the concrete decoded `fly` reply. -/
theorem C3_engine_action_amended_witness :
    (make_gameplay_decision parseFly (.reply "gibberish") obsExplore 0).get
      "action" (.str "") = .str "rest" ∧
    (make_gameplay_decision parseFly (.reply flyText) obsExplore 0).get
      "action" (.str "rest") =
      PyDict.get [("action", .str "fly"), ("reason", .str "wander")]
        "action" (.str "rest") :=
  ⟨C3_engine_action_amended.2.1 parseFly obsExplore 0 "gibberish" (by decide),
   C3_engine_action_amended.2.2.2 parseFly obsExplore 0 flyText
     [("action", .str "fly"), ("reason", .str "wander")] (by decide)⟩

/-- Total number of pixels an image holds, `cv::Mat::total()`: an image is
empty in the OpenCV sense (`_src.empty()`) exactly when this is zero. -/
def pixelCount (img : Image) : Nat :=
  (img.map List.length).sum

/-- Embeds `GameStateMonitor.extract_bar_percentage` together with the OpenCV
error path that the total model `extract_bar_percentage` collapses:
`cv2.cvtColor` contains the assertion `CV_Assert(!_src.empty())` and raises
`cv2.error` on an empty source, so when the cropped bar region holds no
pixels (as every zero-area region arranges) the conversion raises before the
source's `total_pixels > 0` guard runs. On a nonempty crop the behaviour is
that of `extract_bar_percentage`. -/
def extract_bar_percentage_checked (cvt : Pixel → Pixel) (img : Image)
    (color_range : ColorRange) (bar_region : Region) : Except String ℚ :=
  let bar_image := crop img bar_region
  if pixelCount bar_image = 0 then
    .error "cv2.error: !_src.empty() in function cvtColor"
  else
    let hsv := bar_image.map (fun row => row.map cvt)
    let total_pixels := bar_region.w * bar_region.h
    let filled_pixels := (hsv.map (fun row => row.countP (pixelInRange color_range))).sum
    if total_pixels > 0 then
      .ok (min 100 (max 0 ((filled_pixels : ℚ) / (total_pixels : ℚ) * 100)))
    else
      .ok 0

lemma pixelCount_crop_of_zero_area (img : Image) (r : Region)
    (h : r.w * r.h = 0) : pixelCount (crop img r) = 0 := by
  rcases Nat.mul_eq_zero.mp h with hw | hh
  · refine List.sum_eq_zero ?_
    intro n hn
    rw [List.mem_map] at hn
    obtain ⟨row, hrow, rfl⟩ := hn
    simp only [crop, hw, List.take_zero, List.mem_map] at hrow
    obtain ⟨row0, -, rfl⟩ := hrow
    rfl
  · simp [pixelCount, crop, hh]

/-- C6 counterexample: at a zero-area region the cropped bar is empty, so the
`cvtColor` assertion raises `cv2.error` — `extract_bar_percentage` (as run by
the program, `extract_bar_percentage_checked`) errors instead of returning 0,
refuting the claim's zero-area clause; the second conjunct shows the same on
a nonempty image. -/
theorem C6_zero_area_raises_counterexample :
    extract_bar_percentage_checked id [] health_green ⟨0, 0, 0, 5⟩ =
      .error "cv2.error: !_src.empty() in function cvtColor" ∧
    extract_bar_percentage_checked id [[(60, 200, 200), (60, 200, 200)]]
      health_green ⟨0, 0, 0, 2⟩ =
      .error "cv2.error: !_src.empty() in function cvtColor" ∧
    extract_bar_percentage_checked id [] health_green ⟨0, 0, 0, 5⟩ ≠ .ok 0 := by
  refine ⟨rfl, rfl, fun hc => ?_⟩
  rw [show extract_bar_percentage_checked id [] health_green ⟨0, 0, 0, 5⟩ =
    .error "cv2.error: !_src.empty() in function cvtColor" from rfl] at hc
  exact Except.noConfusion hc

/-- C6 (amended): whenever the cropped bar region holds at least one pixel,
`extract_bar_percentage_checked` returns normally with the value of
`extract_bar_percentage`, and every value it returns lies in [0, 100]; but a
region whose width*height is 0 always yields an empty crop, on which the
`cvtColor` assertion raises `cv2.error` before the `total_pixels > 0` guard
runs — the call raises instead of returning 0, and the return-0 branch is
unreachable for zero-area regions. -/
theorem C6_extract_bar_percentage_amended :
    (∀ (cvt : Pixel → Pixel) (img : Image) (cr : ColorRange) (region : Region),
      pixelCount (crop img region) ≠ 0 →
      extract_bar_percentage_checked cvt img cr region =
        .ok (extract_bar_percentage cvt img cr region)) ∧
    (∀ (cvt : Pixel → Pixel) (img : Image) (cr : ColorRange) (region : Region)
      (q : ℚ), extract_bar_percentage_checked cvt img cr region = .ok q →
      0 ≤ q ∧ q ≤ 100) ∧
    (∀ (cvt : Pixel → Pixel) (img : Image) (cr : ColorRange) (region : Region),
      region.w * region.h = 0 →
      extract_bar_percentage_checked cvt img cr region =
        .error "cv2.error: !_src.empty() in function cvtColor") := by
  refine ⟨?_, ?_, ?_⟩
  · intro cvt img cr region h
    simp only [extract_bar_percentage_checked, extract_bar_percentage]
    rw [if_neg h]
    split_ifs <;> rfl
  · intro cvt img cr region q hq
    simp only [extract_bar_percentage_checked] at hq
    split_ifs at hq with h1 h2
    all_goals first
      | exact Except.noConfusion hq
      | (rw [Except.ok.injEq] at hq
         subst hq
         exact ⟨le_min (by norm_num) (le_max_left 0 _), min_le_left _ _⟩)
      | (rw [Except.ok.injEq] at hq
         subst hq
         exact ⟨le_refl 0, by norm_num⟩)
  · intro cvt img cr region h
    simp only [extract_bar_percentage_checked]
    rw [if_pos (pixelCount_crop_of_zero_area img region h)]

/-- C6 witness: `C6_extract_bar_percentage_amended` at a concrete one-pixel
crop (success, value 100 of the total model, inside the bounds) and at a
concrete zero-area region (the raised error). -/
theorem C6_extract_bar_percentage_amended_witness :
    extract_bar_percentage_checked id [[(60, 200, 200)]] health_green ⟨0, 0, 1, 1⟩ =
      .ok (extract_bar_percentage id [[(60, 200, 200)]] health_green ⟨0, 0, 1, 1⟩) ∧
    ((0 : ℚ) ≤ 100 ∧ (100 : ℚ) ≤ 100) ∧
    extract_bar_percentage_checked id [] health_green ⟨0, 0, 0, 5⟩ =
      .error "cv2.error: !_src.empty() in function cvtColor" :=
  ⟨C6_extract_bar_percentage_amended.1 id [[(60, 200, 200)]] health_green
    ⟨0, 0, 1, 1⟩ (by decide),
   C6_extract_bar_percentage_amended.2.1 id [[(60, 200, 200)]] health_green
    ⟨0, 0, 1, 1⟩ 100 (by
      norm_num [extract_bar_percentage_checked, pixelCount, crop, pixelInRange,
        health_green, List.countP, List.countP.go]),
   C6_extract_bar_percentage_amended.2.2 id [] health_green ⟨0, 0, 0, 5⟩
    (by norm_num)⟩

/-- A one-row image whose first four pixels are three green-range pixels and
one black pixel. -/
def imgHealth75 : Image :=
  [[(60, 200, 200), (60, 200, 200), (60, 200, 200), (0, 0, 0)]]

/-- Monitor regions with a 4×1 health bar at the origin (as obtainable by
calibration to a small resolution). -/
def regsHealth75 : UIRegions :=
  { defaultUIRegions with health_bar := ⟨0, 0, 4, 1⟩ }

/-- A one-row image whose first five pixels are three red-range pixels and
two black pixels. -/
def imgHealth60 : Image :=
  [[(5, 200, 200), (5, 200, 200), (5, 200, 200), (0, 0, 0), (0, 0, 0)]]

/-- Monitor regions with a 5×1 health bar at the origin. -/
def regsHealth60 : UIRegions :=
  { defaultUIRegions with health_bar := ⟨0, 0, 5, 1⟩ }

/-- C7: `get_health_percentage` equals the maximum of the green-range and
red-range extractions of the health-bar region over the same underlying
image; concretely, an image whose green match is 75% and red match is 0%
yields 75, and an image whose green match is 0% and red match is 60% yields
60. -/
theorem C7_health_max_of_green_red :
    (∀ (cvt : Pixel → Pixel) (regs : UIRegions) (img : Image),
      get_health_percentage cvt regs img =
        max (extract_bar_percentage cvt img health_green regs.health_bar)
          (extract_bar_percentage cvt img health_red regs.health_bar)) ∧
    (extract_bar_percentage id imgHealth75 health_green regsHealth75.health_bar = 75 ∧
     extract_bar_percentage id imgHealth75 health_red regsHealth75.health_bar = 0 ∧
     get_health_percentage id regsHealth75 imgHealth75 = 75) ∧
    (extract_bar_percentage id imgHealth60 health_green regsHealth60.health_bar = 0 ∧
     extract_bar_percentage id imgHealth60 health_red regsHealth60.health_bar = 60 ∧
     get_health_percentage id regsHealth60 imgHealth60 = 60) := by
  have hg75 : extract_bar_percentage id imgHealth75 health_green
      regsHealth75.health_bar = 75 := by
    norm_num [extract_bar_percentage, crop, pixelInRange, health_green,
      imgHealth75, regsHealth75, defaultUIRegions, List.countP, List.countP.go]
  have hr75 : extract_bar_percentage id imgHealth75 health_red
      regsHealth75.health_bar = 0 := by
    norm_num [extract_bar_percentage, crop, pixelInRange, health_red,
      imgHealth75, regsHealth75, defaultUIRegions, List.countP, List.countP.go]
  have hg60 : extract_bar_percentage id imgHealth60 health_green
      regsHealth60.health_bar = 0 := by
    norm_num [extract_bar_percentage, crop, pixelInRange, health_green,
      imgHealth60, regsHealth60, defaultUIRegions, List.countP, List.countP.go]
  have hr60 : extract_bar_percentage id imgHealth60 health_red
      regsHealth60.health_bar = 60 := by
    norm_num [extract_bar_percentage, crop, pixelInRange, health_red,
      imgHealth60, regsHealth60, defaultUIRegions, List.countP, List.countP.go]
  refine ⟨fun cvt regs img => rfl, ⟨hg75, hr75, ?_⟩, ⟨hg60, hr60, ?_⟩⟩
  · simp only [get_health_percentage, hg75, hr75]
    exact max_eq_left (by norm_num)
  · simp only [get_health_percentage, hg60, hr60]
    exact max_eq_right (by norm_num)

/-- C8: any decision whose action value is outside the dispatcher's known
vocabulary (including non-string action values) makes `execute_decision`
return `false` with an empty event trace: no key press, key down, key up or
sleep is performed, and no exception escapes (the embedded function is
total). -/
theorem C8_execute_decision_unknown (d : PyDict)
    (h : ∀ s : String,
      PyDict.get d "action" (.str "rest") = .str s → s ∉ known_actions) :
    execute_decision d = (false, []) := by
  unfold execute_decision
  split
  · rename_i s hs
    have hmem := h s hs
    delta dispatchAction
    have h1 : ¬(s = "attack") := fun e => hmem (by rw [e]; decide)
    have h2 : ¬(s = "power_combo") := fun e => hmem (by rw [e]; decide)
    have h3 : ¬(s = "aoe_combo") := fun e => hmem (by rw [e]; decide)
    have h4 : ¬(s = "retreat") := fun e => hmem (by rw [e]; decide)
    have h5 : ¬(s = "rest") := fun e => hmem (by rw [e]; decide)
    have h6 : ¬(s = "move_forward") := fun e => hmem (by rw [e]; decide)
    have h7 : ¬(s = "circle_strafe") := fun e => hmem (by rw [e]; decide)
    have h8 : ¬(s = "turn_left") := fun e => hmem (by rw [e]; decide)
    have h9 : ¬(s = "turn_right") := fun e => hmem (by rw [e]; decide)
    have h10 : ¬(s = "patrol") := fun e => hmem (by rw [e]; decide)
    have h11 : ¬(s = "search_enemies") := fun e => hmem (by rw [e]; decide)
    have h12 : ¬(s = "find_cover") := fun e => hmem (by rw [e]; decide)
    have h13 : ¬(s = "wait") := fun e => hmem (by rw [e]; decide)
    rw [if_neg h1, if_neg h2, if_neg h3, if_neg h4, if_neg h5, if_neg h6,
      if_neg h7, if_neg h8, if_neg h9, if_neg h10, if_neg h11, if_neg h12,
      if_neg h13]
  · rfl

/-- C8 witness: `C8_execute_decision_unknown` at the concrete out-of-vocabulary
action `teleport`. -/
theorem C8_execute_decision_unknown_witness :
    execute_decision [("action", PyVal.str "teleport")] = (false, []) :=
  C8_execute_decision_unknown _ (by
    intro s hs
    simp [PyDict.get] at hs
    subst hs
    decide)

lemma dictFind_mem {α β : Type} [DecidableEq α] {k : α} {v : β} :
    ∀ {l : List (α × β)}, dictFind k l = some v → (k, v) ∈ l := by
  intro l
  induction l with
  | nil => simp [dictFind]
  | cons p rest ih =>
      obtain ⟨a, b⟩ := p
      simp only [dictFind]
      split_ifs with hak
      · subst hak
        intro hv
        rw [Option.some_inj] at hv
        subst hv
        exact List.mem_cons_self _ _
      · intro hv
        exact List.mem_cons_of_mem _ (ih hv)

lemma runChain_valid (hotkeys : List (Nat × String)) (timings : List (Nat × ℚ))
    (healthAt : Nat → ℚ) :
    ∀ (chain : List (Nat × ℚ)) (i : Nat),
      (∀ p ∈ chain, (dictFind p.1 hotkeys).isSome) →
      runChain hotkeys timings false healthAt i chain =
        (chainEvents hotkeys chain, none) := by
  intro chain
  induction chain with
  | nil =>
      intro i _
      simp [runChain, chainEvents]
  | cons p rest ih =>
      intro i hvalid
      obtain ⟨ability_key, wait_time⟩ := p
      have h1 : (dictFind ability_key hotkeys).isSome :=
        hvalid _ (List.mem_cons_self _ _)
      obtain ⟨key, hk⟩ := Option.isSome_iff_exists.mp h1
      simp only [runChain, false_and, if_false]
      simp only [use_ability, hk, if_neg (Bool.false_ne_true), List.append_nil]
      rw [ih (i + 1) (fun q hq => hvalid q (List.mem_cons_of_mem _ hq))]
      simp [chainEvents, hk]

lemma default_chains_valid (name : String) (chain : List (Nat × ℚ))
    (h : dictFind name default_attack_chains = some chain) :
    ∀ p ∈ chain, (dictFind p.1 default_hotkeys).isSome := by
  have hmem := dictFind_mem h
  simp only [default_attack_chains, List.mem_cons, List.not_mem_nil, or_false,
    Prod.mk.injEq] at hmem
  rcases hmem with ⟨hn, hc⟩ | ⟨hn, hc⟩ | ⟨hn, hc⟩ | ⟨hn, hc⟩ | ⟨hn, hc⟩ |
      ⟨hn, hc⟩ | ⟨hn, hc⟩ | ⟨hn, hc⟩ <;>
    (subst hc; decide)

/-- C9: `use_ability` with an ability number outside the configured hotkey set
raises `ValueError` immediately — no key press, no retry; similarly
`execute_attack_chain` with an unregistered chain name raises `ValueError`
before any key press; and for any chain registered in the default registry it
presses the chain's ability hotkeys strictly in listed order, each press
followed by the prescribed wait, raising nothing. -/
theorem C9_attack_chain_contract :
    (∀ (timings : List (Nat × ℚ)) (n : Nat) (wfa : Bool),
      dictFind n default_hotkeys = none →
      use_ability default_hotkeys timings n wfa =
        ([], some ("Invalid ability number: " ++ toString n))) ∧
    (∀ (chains : List (String × List (Nat × ℚ))) (hotkeys : List (Nat × String))
      (timings : List (Nat × ℚ)) (name : String) (interrupt : Bool)
      (healthAt : Nat → ℚ),
      dictFind name chains = none →
      execute_attack_chain chains hotkeys timings name interrupt healthAt =
        ([], some ("Unknown attack chain: " ++ name))) ∧
    (∀ (name : String) (chain : List (Nat × ℚ)) (healthAt : Nat → ℚ),
      dictFind name default_attack_chains = some chain →
      execute_attack_chain default_attack_chains default_hotkeys
        default_ability_timings name false healthAt =
        (chainEvents default_hotkeys chain, none)) := by
  refine ⟨?_, ?_, ?_⟩
  · intro timings n wfa h
    simp [use_ability, h]
  · intro chains hotkeys timings name interrupt healthAt h
    simp [execute_attack_chain, h]
  · intro name chain healthAt h
    simp only [execute_attack_chain, h]
    exact runChain_valid _ _ _ chain 0 (default_chains_valid name chain h)

/-- C9 witness: `C9_attack_chain_contract` at the unknown ability number 15,
an unknown chain name, and the registered `basic_combo` chain (whose event
trace is slot 1 then 1.2 s, slot 2 then 1.5 s, slot 3 then 2.0 s). -/
theorem C9_attack_chain_contract_witness :
    use_ability default_hotkeys default_ability_timings 15 true =
      ([], some ("Invalid ability number: " ++ toString 15)) ∧
    execute_attack_chain default_attack_chains default_hotkeys
      default_ability_timings "mystery_chain" false (fun _ => 100) =
      ([], some ("Unknown attack chain: " ++ "mystery_chain")) ∧
    execute_attack_chain default_attack_chains default_hotkeys
      default_ability_timings "basic_combo" false (fun _ => 100) =
      (chainEvents default_hotkeys [(1, 1.2), (2, 1.5), (3, 2.0)], none) :=
  ⟨C9_attack_chain_contract.1 default_ability_timings 15 true (by decide),
   C9_attack_chain_contract.2.1 default_attack_chains default_hotkeys
     default_ability_timings "mystery_chain" false (fun _ => 100) (by decide),
   C9_attack_chain_contract.2.2 "basic_combo" [(1, 1.2), (2, 1.5), (3, 2.0)]
     (fun _ => 100) (by rfl)⟩

end COH
